import Mathlib

/-!
Shallow embedding of the scan-orchestration and risk-aggregation core of the
Cloud Security Posture Scanner (`src/cspm_scanner`), together with theorems
settling the frozen claims about it.

Conventions of the embedding:
* Python `float` arithmetic is modelled by exact rationals (`ℚ`); `int(x)` on a
  nonnegative value is `⌊x⌋`; Python `round(x, 2)` (round half to even) is
  modelled by `pyRound`/`round2` below.
* `SeverityLevel` is a `str`-valued enum in the source; the string value of each
  member is recorded by `sevValue`, because Python compares such enum members
  as strings (this matters for `max` in `calculate_resource_risk_score`).
* Fallible inspector invocations are modelled by `Option (List SecurityFinding)`
  (`none` = the scanner raised), and the orchestrator's access check by the
  `validate_access` function argument.
* Fields of the source's models that the verified logic never inspects
  (human-facing text, metadata) are omitted.
-/

namespace CSPM

/-- Severity levels, from `models.SeverityLevel` (a `str`-valued enum declared in
the order CRITICAL, HIGH, MEDIUM, LOW, INFO). -/
inductive SeverityLevel where
  | CRITICAL
  | HIGH
  | MEDIUM
  | LOW
  | INFO
deriving DecidableEq, Repr

/-- The string value of each `SeverityLevel` member, from `models.py`.  Python
compares members of a `str`-enum by these strings. -/
def sevValue : SeverityLevel → String
  | .CRITICAL => "critical"
  | .HIGH => "high"
  | .MEDIUM => "medium"
  | .LOW => "low"
  | .INFO => "info"

/-- The five severity levels in the enum's declaration order (the iteration
order of `SeverityLevel` in Python). -/
def allSeverities : List SeverityLevel :=
  [.CRITICAL, .HIGH, .MEDIUM, .LOW, .INFO]

/-- One security finding (`models.SecurityFinding`), restricted to the fields
the engine's logic inspects: `resource_id` (distinct-resource counting),
`severity` and `risk_score` (scoring, filtering, prioritisation). -/
structure SecurityFinding where
  id : String
  resource_id : String
  severity : SeverityLevel
  risk_score : ℕ
deriving DecidableEq, Repr

/-- Severity weights from `RiskScoringEngine.__init__`. -/
def severity_weights : SeverityLevel → ℕ
  | .CRITICAL => 100
  | .HIGH => 75
  | .MEDIUM => 50
  | .LOW => 25
  | .INFO => 10

/-! ### Overall risk score (`RiskScoringEngine.calculate_overall_risk_score`) -/

/-- The distinct severities present among `findings`, in first-occurrence order
(the iteration order of the Python `Counter`). -/
def present_severities (findings : List SecurityFinding) : List SeverityLevel :=
  (findings.map (·.severity)).dedup

/-- `weighted_sum = Σ weight[s] × count[s]` over the severities present. -/
def weighted_sum (findings : List SecurityFinding) : ℕ :=
  ((present_severities findings).map
    (fun s => severity_weights s * (findings.map (·.severity)).count s)).sum

/-- `total_weight = Σ weight[s]` over the severities present. -/
def total_weight (findings : List SecurityFinding) : ℕ :=
  ((present_severities findings).map severity_weights).sum

/-- `base_score = (weighted_sum / total_weight) * 100`. -/
def overall_base_score (findings : List SecurityFinding) : ℚ :=
  (weighted_sum findings : ℚ) / (total_weight findings : ℚ) * 100

/-- `density_factor = min(1.5, 1.0 + (len(findings) / 100))`. -/
def overall_density_factor (findings : List SecurityFinding) : ℚ :=
  min (3 / 2) (1 + (findings.length : ℚ) / 100)

/-- `RiskScoringEngine.calculate_overall_risk_score`: guard for the empty list,
guard for zero total weight, then `int(min(100, base_score * density_factor))`
(`int` truncates; the value is nonnegative, so this is the floor). -/
def calculate_overall_risk_score (findings : List SecurityFinding) : ℤ :=
  if findings = [] then 0
  else if total_weight findings = 0 then 0
  else ⌊min 100 (overall_base_score findings * overall_density_factor findings)⌋

/-! ### Per-resource risk score (`RiskScoringEngine.calculate_resource_risk_score`) -/

/-- Lexicographic (code-point) comparison of character lists: the order Python
uses to compare strings. -/
def charListLt : List Char → List Char → Bool
  | [], [] => false
  | [], _ :: _ => true
  | _ :: _, [] => false
  | a :: as, b :: bs =>
    if a.toNat < b.toNat then true
    else if b.toNat < a.toNat then false
    else charListLt as bs

/-- Python's `<` on strings: lexicographic comparison by code point. -/
def strLt (a b : String) : Bool := charListLt a.data b.data

/-- Python's `max(...)` over severities: keep the current maximum, replacing it
whenever a later item compares greater.  Because `SeverityLevel` is a
`str`-enum, the comparison is lexicographic on the member strings. -/
def python_max_severity (s : SeverityLevel) (rest : List SeverityLevel) : SeverityLevel :=
  rest.foldl (fun acc x => if strLt (sevValue acc) (sevValue x) then x else acc) s

/-- `RiskScoringEngine.calculate_resource_risk_score`: base score is the weight
of `max(finding.severity for ...)` (string comparison, see
`python_max_severity`), times `min(1.5, 1.0 + len/10)`, clamped to 100,
truncated to an integer. -/
def calculate_resource_risk_score (resource_findings : List SecurityFinding) : ℤ :=
  match resource_findings with
  | [] => 0
  | f :: fs =>
      let highest_severity := python_max_severity f.severity (fs.map (·.severity))
      let base_score : ℚ := severity_weights highest_severity
      let finding_count_factor : ℚ := min (3 / 2) (1 + ((f :: fs).length : ℚ) / 10)
      ⌊min 100 (base_score * finding_count_factor)⌋

/-- The severity rank used throughout the spec: info < low < medium < high <
critical (also the rank table of `_filter_findings_by_severity`). -/
def severity_rank : SeverityLevel → ℕ
  | .INFO => 0
  | .LOW => 1
  | .MEDIUM => 2
  | .HIGH => 3
  | .CRITICAL => 4

/-- Follows the claim's words (not the source): per-resource score with the
highest severity taken under the order info < low < medium < high < critical,
for comparison with `calculate_resource_risk_score`. -/
def resource_risk_score_spec (resource_findings : List SecurityFinding) : ℤ :=
  match resource_findings with
  | [] => 0
  | f :: fs =>
      let highest_severity :=
        fs.foldl (fun acc g =>
          if severity_rank acc < severity_rank g.severity then g.severity else acc) f.severity
      let base_score : ℚ := severity_weights highest_severity
      let finding_count_factor : ℚ := min (3 / 2) (1 + ((f :: fs).length : ℚ) / 10)
      ⌊min 100 (base_score * finding_count_factor)⌋

/-! ### Severity histogram (`RiskScoringEngine.get_findings_by_severity`) -/

/-- `RiskScoringEngine.get_findings_by_severity`: a dict holding all five
severity keys in enum order, each mapped to the number of findings of that
severity (zero when absent). -/
def get_findings_by_severity (findings : List SecurityFinding) :
    List (SeverityLevel × ℕ) :=
  allSeverities.map (fun s => (s, findings.countP (fun f => f.severity = s)))

/-! ### Severity filter (`ScannerEngine._filter_findings_by_severity`) -/

/-- `ScannerEngine._filter_findings_by_severity`: retain the findings whose
severity rank (per `severity_rank`, the method's `severity_order` table) is at
least the threshold's rank, preserving order. -/
def filter_findings_by_severity (findings : List SecurityFinding)
    (min_severity : SeverityLevel) : List SecurityFinding :=
  findings.filter (fun f => severity_rank min_severity ≤ severity_rank f.severity)

/-! ### Scan orchestration (`ScannerEngine.scan_subscription`) -/

/-- The scan result assembled by `scan_subscription` (`models.ScanResult`),
without the wall-clock `scan_duration_seconds` field (real time is outside the
embedding) and the display name (opaque). -/
structure ScanResult where
  subscription_id : String
  scan_timestamp : ℕ
  total_resources_scanned : ℕ
  total_findings : ℕ
  findings_by_severity : List (SeverityLevel × ℕ)
  findings : List SecurityFinding
  risk_score : ℤ
deriving DecidableEq, Repr

/-- The result built by `scan_subscription`'s `except` branch: zero counts, an
EMPTY `findings_by_severity` dict, no findings, risk score 0. -/
def errorScanResult (subscription_id : String) (now : ℕ) : ScanResult :=
  ⟨subscription_id, now, 0, 0, [], [], 0⟩

/-- `ScannerEngine.scan_subscription`.  `validate_access` stands for
`auth_manager.validate_access`; `now` for `datetime.utcnow()`;
`inspector_runs` for the outcomes of `scanner.scan()` over the resolved
scanners in iteration order (`none` = the scanner raised, caught by the
per-scanner `except`); `severity_threshold` is `scan_request.severity_threshold`
when a request is supplied.  A failed access check raises, and the
function-level `except` turns that into `errorScanResult`. -/
def scan_subscription (validate_access : String → Bool)
    (subscription_id : String) (now : ℕ)
    (inspector_runs : List (Option (List SecurityFinding)))
    (severity_threshold : Option SeverityLevel) : ScanResult :=
  if validate_access subscription_id = false then errorScanResult subscription_id now
  else
    let successful := inspector_runs.filterMap id
    let all_findings := successful.flatten
    let total_resources_scanned :=
      (successful.map (fun fs => ((fs.map (·.resource_id)).dedup).length)).sum
    let filtered :=
      match severity_threshold with
      | none => all_findings
      | some t => filter_findings_by_severity all_findings t
    ⟨subscription_id, now, total_resources_scanned, filtered.length,
      get_findings_by_severity filtered, filtered,
      calculate_overall_risk_score filtered⟩

/-! ### Risk trend (`RiskScoringEngine.calculate_subscription_risk_trend`) -/

/-- Python's `round` to the nearest integer, half to even, on exact rationals. -/
def pyRound (q : ℚ) : ℤ :=
  if q - ⌊q⌋ < 1 / 2 then ⌊q⌋
  else if 1 / 2 < q - ⌊q⌋ then ⌊q⌋ + 1
  else if ⌊q⌋ % 2 = 0 then ⌊q⌋ else ⌊q⌋ + 1

/-- Python's `round(q, 2)` on exact rationals. -/
def round2 (q : ℚ) : ℚ := (pyRound (q * 100) : ℚ) / 100

/-- The key of `sorted(scan_results, key=lambda x: x.scan_timestamp,
reverse=True)`: `a` precedes `b` when `b`'s timestamp is not larger. -/
def moreRecent (a b : ScanResult) : Prop := b.scan_timestamp ≤ a.scan_timestamp

instance : DecidableRel moreRecent :=
  fun a b => inferInstanceAs (Decidable (b.scan_timestamp ≤ a.scan_timestamp))

instance : IsTotal ScanResult moreRecent :=
  ⟨fun a b => Nat.le_total b.scan_timestamp a.scan_timestamp⟩

instance : IsTrans ScanResult moreRecent := ⟨fun _ _ _ hab hbc => Nat.le_trans hbc hab⟩

/-- The dictionary returned by `calculate_subscription_risk_trend`; the
`current_score`/`previous_score` keys are absent (`none`) in the early return
for fewer than two scans. -/
structure TrendResult where
  trend : ℚ
  direction : String
  current_score : Option ℤ
  previous_score : Option ℤ
deriving DecidableEq, Repr

/-- `RiskScoringEngine.calculate_subscription_risk_trend`: sort by timestamp
descending (Python's stable sort, embedded as a stable insertion sort), take
the two most recent, compute the rounded percentage change and a direction.
The catch-all match arm is unreachable when the length guard fails. -/
def calculate_subscription_risk_trend (scan_results : List ScanResult) : TrendResult :=
  if scan_results.length < 2 then ⟨0, "stable", none, none⟩
  else
    match List.insertionSort moreRecent scan_results with
    | s0 :: s1 :: _ =>
      let current_score := s0.risk_score
      let previous_score := s1.risk_score
      if previous_score = 0 then ⟨0, "stable", some current_score, some previous_score⟩
      else
        let change_percent : ℚ :=
          ((current_score : ℚ) - (previous_score : ℚ)) / (previous_score : ℚ) * 100
        let trend := round2 change_percent
        let direction :=
          if 5 < trend then
            if current_score < previous_score then "improving" else "degrading"
          else if trend < -5 then
            if previous_score < current_score then "degrading" else "improving"
          else "stable"
        ⟨trend, direction, some current_score, some previous_score⟩
    | _ => ⟨0, "stable", none, none⟩

/-! ### Prioritisation (`RiskScoringEngine.prioritize_findings`) -/

/-- The `severity_order` table local to `prioritize_findings`: critical first. -/
def severity_order_prioritize : SeverityLevel → ℕ
  | .CRITICAL => 0
  | .HIGH => 1
  | .MEDIUM => 2
  | .LOW => 3
  | .INFO => 4

/-- The sort key order of `prioritize_findings`: ascending in the tuple
`(severity_order[f.severity], -f.risk_score)`. -/
def priority_le (f g : SecurityFinding) : Prop :=
  severity_order_prioritize f.severity < severity_order_prioritize g.severity ∨
    (severity_order_prioritize f.severity = severity_order_prioritize g.severity ∧
      g.risk_score ≤ f.risk_score)

instance : DecidableRel priority_le := fun f g => by unfold priority_le; infer_instance

instance : IsTotal SecurityFinding priority_le := ⟨by intro a b; unfold priority_le; omega⟩

instance : IsTrans SecurityFinding priority_le :=
  ⟨by intro a b c; unfold priority_le; omega⟩

/-- `RiskScoringEngine.prioritize_findings`: Python's `sorted` is a stable sort
on the key above, embedded as a stable insertion sort (a stable sort for a
total preorder is unique, so any stable sort gives the source's output). -/
def prioritize_findings (findings : List SecurityFinding) : List SecurityFinding :=
  List.insertionSort priority_le findings

/-! ## Helper lemmas about the overall risk score -/

lemma severity_weights_pos (s : SeverityLevel) : 0 < severity_weights s := by
  cases s <;> decide

lemma mem_present_severities {l : List SecurityFinding} {f : SecurityFinding}
    (hf : f ∈ l) : f.severity ∈ present_severities l :=
  List.mem_dedup.mpr (List.mem_map.mpr ⟨f, hf, rfl⟩)

lemma total_weight_pos {l : List SecurityFinding} (h : l ≠ []) : 0 < total_weight l := by
  obtain ⟨f, hf⟩ := List.exists_mem_of_ne_nil l h
  have hmem : severity_weights f.severity ∈ (present_severities l).map severity_weights :=
    List.mem_map.mpr ⟨f.severity, mem_present_severities hf, rfl⟩
  exact Nat.lt_of_lt_of_le (severity_weights_pos f.severity)
    (List.single_le_sum (fun x _ => Nat.zero_le x) _ hmem)

lemma total_weight_le_weighted_sum (l : List SecurityFinding) :
    total_weight l ≤ weighted_sum l := by
  apply List.sum_le_sum
  intro s hs
  have hmem : s ∈ l.map (·.severity) := List.mem_dedup.mp hs
  have hcount : 0 < (l.map (·.severity)).count s := List.count_pos_iff.mpr hmem
  calc severity_weights s = severity_weights s * 1 := (Nat.mul_one _).symm
    _ ≤ severity_weights s * (l.map (·.severity)).count s :=
        Nat.mul_le_mul_left _ hcount

lemma overall_base_score_ge {l : List SecurityFinding} (h : l ≠ []) :
    (100 : ℚ) ≤ overall_base_score l := by
  have htw : (0 : ℚ) < (total_weight l : ℚ) := by
    exact_mod_cast total_weight_pos h
  have hws : (total_weight l : ℚ) ≤ (weighted_sum l : ℚ) := by
    exact_mod_cast total_weight_le_weighted_sum l
  have hdiv : (1 : ℚ) ≤ (weighted_sum l : ℚ) / (total_weight l : ℚ) :=
    (one_le_div htw).mpr hws
  calc (100 : ℚ) = 1 * 100 := by ring
    _ ≤ (weighted_sum l : ℚ) / (total_weight l : ℚ) * 100 := by
        exact mul_le_mul_of_nonneg_right hdiv (by norm_num)

lemma overall_density_factor_ge (l : List SecurityFinding) :
    (1 : ℚ) ≤ overall_density_factor l := by
  refine le_min (by norm_num) ?_
  have : (0 : ℚ) ≤ (l.length : ℚ) / 100 := by positivity
  linarith

lemma overall_product_ge {l : List SecurityFinding} (h : l ≠ []) :
    (100 : ℚ) ≤ overall_base_score l * overall_density_factor l := by
  calc (100 : ℚ) = 100 * 1 := by ring
    _ ≤ overall_base_score l * overall_density_factor l :=
        mul_le_mul (overall_base_score_ge h) (overall_density_factor_ge l)
          (by norm_num) (le_trans (by norm_num) (overall_base_score_ge h))

lemma overall_risk_score_of_ne_nil {l : List SecurityFinding} (h : l ≠ []) :
    calculate_overall_risk_score l = 100 := by
  rw [calculate_overall_risk_score, if_neg h, if_neg (total_weight_pos h).ne',
    min_eq_left (overall_product_ge h)]
  norm_num

/-! ## Claim C1 -/

/-- C1: for every sequence of findings, `calculate_overall_risk_score` returns
an integer in `[0, 100]`; the empty sequence yields 0; and a non-empty sequence
yields exactly `min(100, round(baseScore × densityFactor))`, where `baseScore`
is the weighted share of the severities present times 100 and `densityFactor =
min(1.5, 1 + n/100)`, with the density factor applied before the 100-cap.  (The
associated witness instantiates the claim's `[critical×1, high×2]` example,
whose score is 100.) -/
theorem overall_risk_score_formula (l : List SecurityFinding) :
    0 ≤ calculate_overall_risk_score l ∧ calculate_overall_risk_score l ≤ 100 ∧
      (l = [] → calculate_overall_risk_score l = 0) ∧
      (l ≠ [] → calculate_overall_risk_score l =
        min 100 (round (overall_base_score l * overall_density_factor l))) := by
  by_cases h : l = []
  · subst h
    exact ⟨by decide, by decide, fun _ => by decide, fun hne => absurd rfl hne⟩
  · have hs := overall_risk_score_of_ne_nil h
    have hround : (100 : ℤ) ≤ round (overall_base_score l * overall_density_factor l) := by
      rw [round_eq]
      refine Int.le_floor.mpr ?_
      have := overall_product_ge h
      push_cast
      linarith
    refine ⟨by rw [hs]; norm_num, by rw [hs], fun he => absurd he h, fun _ => ?_⟩
    rw [hs, min_eq_left hround]

/-- Witness for C1, at the claim's own example `[critical×1, high×2]`:
`weightedSum = 250`, `totalWeight = 175`, `densityFactor = 1.03`, and the final
score is 100 (the 100-cap binds after the density factor is applied). -/
theorem overall_risk_score_formula_witness :
    ([⟨"f1", "r1", SeverityLevel.CRITICAL, 90⟩, ⟨"f2", "r2", SeverityLevel.HIGH, 80⟩,
        ⟨"f3", "r3", SeverityLevel.HIGH, 70⟩] : List SecurityFinding) ≠ [] ∧
      calculate_overall_risk_score
        [⟨"f1", "r1", SeverityLevel.CRITICAL, 90⟩, ⟨"f2", "r2", SeverityLevel.HIGH, 80⟩,
          ⟨"f3", "r3", SeverityLevel.HIGH, 70⟩] =
        min 100 (round
          (overall_base_score
              [⟨"f1", "r1", SeverityLevel.CRITICAL, 90⟩, ⟨"f2", "r2", SeverityLevel.HIGH, 80⟩,
                ⟨"f3", "r3", SeverityLevel.HIGH, 70⟩] *
            overall_density_factor
              [⟨"f1", "r1", SeverityLevel.CRITICAL, 90⟩, ⟨"f2", "r2", SeverityLevel.HIGH, 80⟩,
                ⟨"f3", "r3", SeverityLevel.HIGH, 70⟩])) ∧
      calculate_overall_risk_score
        [⟨"f1", "r1", SeverityLevel.CRITICAL, 90⟩, ⟨"f2", "r2", SeverityLevel.HIGH, 80⟩,
          ⟨"f3", "r3", SeverityLevel.HIGH, 70⟩] = 100 ∧
      weighted_sum
        [⟨"f1", "r1", SeverityLevel.CRITICAL, 90⟩, ⟨"f2", "r2", SeverityLevel.HIGH, 80⟩,
          ⟨"f3", "r3", SeverityLevel.HIGH, 70⟩] = 250 ∧
      total_weight
        [⟨"f1", "r1", SeverityLevel.CRITICAL, 90⟩, ⟨"f2", "r2", SeverityLevel.HIGH, 80⟩,
          ⟨"f3", "r3", SeverityLevel.HIGH, 70⟩] = 175 ∧
      overall_density_factor
        [⟨"f1", "r1", SeverityLevel.CRITICAL, 90⟩, ⟨"f2", "r2", SeverityLevel.HIGH, 80⟩,
          ⟨"f3", "r3", SeverityLevel.HIGH, 70⟩] = 103 / 100 :=
  ⟨by decide,
    (overall_risk_score_formula _).2.2.2 (by decide),
    overall_risk_score_of_ne_nil (by decide),
    rfl, rfl, by norm_num [overall_density_factor]⟩

/-! ## Claim C2 -/

/-- C2: the overall risk score collapses to a two-valued function: 0 on the
empty list and exactly 100 on every non-empty list, whatever the severity mix —
every severity present has count ≥ 1, so the weighted sum is at least the total
weight, the base score is at least 100, and the 100-cap always binds. -/
theorem overall_risk_score_empty_or_hundred (l : List SecurityFinding) :
    calculate_overall_risk_score l = if l = [] then 0 else 100 := by
  by_cases h : l = []
  · subst h; decide
  · rw [if_neg h]; exact overall_risk_score_of_ne_nil h

/-! ## Claim C3 -/

/-- C3: evidence for the defect in `calculate_resource_risk_score`.  The claim
(and the method's own comment, "use the highest severity finding as the base")
requires the highest severity under info < low < medium < high < critical, but
`max` on Python's `str`-enum compares member strings: `"critical" < "medium"`
lexicographically, so on `[critical, medium]` the code takes MEDIUM (weight
50) as the base and returns `int(min(100, 50 × 1.2)) = 60`, where the claimed
computation (`resource_risk_score_spec`) returns 100.  On a single critical
finding the two agree (100): only the `max` is wrong, not the weights. -/
theorem resource_risk_score_lexicographic_bug :
    calculate_resource_risk_score
        [⟨"a", "r1", SeverityLevel.CRITICAL, 90⟩, ⟨"b", "r1", SeverityLevel.MEDIUM, 55⟩] = 60 ∧
      resource_risk_score_spec
        [⟨"a", "r1", SeverityLevel.CRITICAL, 90⟩, ⟨"b", "r1", SeverityLevel.MEDIUM, 55⟩] = 100 ∧
      calculate_resource_risk_score [⟨"a", "r1", SeverityLevel.CRITICAL, 90⟩] = 100 ∧
      strLt (sevValue SeverityLevel.CRITICAL) (sevValue SeverityLevel.MEDIUM) = true := by
  refine ⟨?_, ?_, ?_, by decide⟩
  · have hmax : python_max_severity SeverityLevel.CRITICAL [SeverityLevel.MEDIUM] =
        SeverityLevel.MEDIUM := by decide
    rw [calculate_resource_risk_score]
    simp only [List.map, hmax, severity_weights, List.length]
    norm_num
  · rw [resource_risk_score_spec]
    simp only [List.foldl, severity_rank, severity_weights, List.length]
    norm_num
  · have hmax : python_max_severity SeverityLevel.CRITICAL [] = SeverityLevel.CRITICAL := rfl
    rw [calculate_resource_risk_score]
    simp only [List.map, hmax, severity_weights, List.length]
    norm_num

/-! ## Claim C6 -/

/-- C6: the severity filter retains exactly the findings whose severity rank
(info=0 < low=1 < medium=2 < high=3 < critical=4) is at least the threshold's
rank, preserving relative order (the result is a sublist of the input);
filtering at `critical` keeps exactly the critical findings, and filtering at
`info` is the identity. -/
theorem filter_findings_spec (l : List SecurityFinding) (t : SeverityLevel) :
    (filter_findings_by_severity l t).Sublist l ∧
      (∀ f, f ∈ filter_findings_by_severity l t ↔
        f ∈ l ∧ severity_rank t ≤ severity_rank f.severity) ∧
      filter_findings_by_severity l SeverityLevel.CRITICAL =
        l.filter (fun f => f.severity = SeverityLevel.CRITICAL) ∧
      filter_findings_by_severity l SeverityLevel.INFO = l := by
  refine ⟨List.filter_sublist l, ?_, ?_, ?_⟩
  · intro f
    simp [filter_findings_by_severity, List.mem_filter]
  · rw [filter_findings_by_severity]
    apply List.filter_congr
    intro f _
    rcases f with ⟨i, r, s, k⟩
    cases s <;> rfl
  · rw [filter_findings_by_severity]
    apply List.filter_eq_self.mpr
    intro f _
    simp [severity_rank]

/-- Witness for C6: at threshold `critical` the filter keeps exactly the
critical finding of a two-finding list (and that finding is a member of the
output); at threshold `info` the list is returned unchanged. -/
theorem filter_findings_spec_witness :
    filter_findings_by_severity
        [⟨"i", "r1", SeverityLevel.INFO, 10⟩, ⟨"c", "r2", SeverityLevel.CRITICAL, 95⟩]
        SeverityLevel.CRITICAL = [⟨"c", "r2", SeverityLevel.CRITICAL, 95⟩] ∧
      (⟨"c", "r2", SeverityLevel.CRITICAL, 95⟩ : SecurityFinding) ∈
        filter_findings_by_severity
          [⟨"i", "r1", SeverityLevel.INFO, 10⟩, ⟨"c", "r2", SeverityLevel.CRITICAL, 95⟩]
          SeverityLevel.CRITICAL ∧
      filter_findings_by_severity
        [⟨"i", "r1", SeverityLevel.INFO, 10⟩, ⟨"c", "r2", SeverityLevel.CRITICAL, 95⟩]
        SeverityLevel.INFO =
        [⟨"i", "r1", SeverityLevel.INFO, 10⟩, ⟨"c", "r2", SeverityLevel.CRITICAL, 95⟩] :=
  ⟨by decide,
    ((filter_findings_spec
        [⟨"i", "r1", SeverityLevel.INFO, 10⟩, ⟨"c", "r2", SeverityLevel.CRITICAL, 95⟩]
        SeverityLevel.CRITICAL).2.1 _).mpr ⟨by decide, by decide⟩,
    (filter_findings_spec
        [⟨"i", "r1", SeverityLevel.INFO, 10⟩, ⟨"c", "r2", SeverityLevel.CRITICAL, 95⟩]
        SeverityLevel.INFO).2.2.2⟩

/-! ## Claim C7 -/

lemma histogram_keys (l : List SecurityFinding) :
    (get_findings_by_severity l).map Prod.fst = allSeverities := by
  simp [get_findings_by_severity, List.map_map, Function.comp_def]

lemma histogram_sum (l : List SecurityFinding) :
    ((get_findings_by_severity l).map Prod.snd).sum = l.length := by
  induction l with
  | nil => decide
  | cons f t ih =>
    simp only [get_findings_by_severity, allSeverities, List.map_cons, List.map_nil,
      List.countP_cons, List.sum_cons, List.sum_nil, List.length_cons] at ih ⊢
    rcases f with ⟨i, r, s, k⟩
    cases s <;> simp <;> omega

/-- C7 (amended): `get_findings_by_severity` always returns exactly the five
severity keys, in enum order, with counts summing to the number of findings;
and every scan that passes the access check carries such a five-key histogram
in its result.  (The unamended claim over *every* returned Scan Result fails:
see the access-denied counterexample, whose histogram is the empty dict.) -/
theorem findings_by_severity_histogram (l : List SecurityFinding) :
    (get_findings_by_severity l).map Prod.fst = allSeverities ∧
      ((get_findings_by_severity l).map Prod.snd).sum = l.length ∧
      (∀ (v : String → Bool) (sub : String) (now : ℕ)
          (runs : List (Option (List SecurityFinding))) (t : Option SeverityLevel),
        v sub = true →
          (scan_subscription v sub now runs t).findings_by_severity.map Prod.fst =
            allSeverities) := by
  refine ⟨histogram_keys l, histogram_sum l, ?_⟩
  intro v sub now runs t hv
  simp only [scan_subscription, hv]
  exact histogram_keys _

/-- Witness for C7: a concrete successful scan whose result's histogram has
exactly the five severity keys. -/
theorem findings_by_severity_histogram_witness :
    (scan_subscription (fun _ => true) "sub-7" 4
        [some [⟨"a", "r1", SeverityLevel.LOW, 25⟩]] none).findings_by_severity.map Prod.fst =
      allSeverities ∧
      ((get_findings_by_severity [⟨"a", "r1", SeverityLevel.LOW, 25⟩]).map Prod.snd).sum = 1 :=
  ⟨(findings_by_severity_histogram []).2.2 (fun _ => true) "sub-7" 4
      [some [⟨"a", "r1", SeverityLevel.LOW, 25⟩]] none rfl,
    by decide⟩

/-- Counterexample for C7 as frozen: the Scan Result returned for a target that
fails the access check has an EMPTY `findings_by_severity` dict (the `except`
branch constructs it as `{}`), so not every Scan Result returned by
`scan_subscription` contains the five severity keys. -/
theorem findings_by_severity_denied_empty :
    (scan_subscription (fun _ => false) "sub-8" 9
        [some [⟨"a", "r1", SeverityLevel.CRITICAL, 90⟩]] none).findings_by_severity = [] ∧
      SeverityLevel.CRITICAL ∉
        ((scan_subscription (fun _ => false) "sub-8" 9
            [some [⟨"a", "r1", SeverityLevel.CRITICAL, 90⟩]] none).findings_by_severity.map
          Prod.fst) := by
  exact ⟨by decide, by decide⟩

/-! ## Claim C4 -/

/-- C4 (amended): when the access check refuses the target, no inspector's
outcome influences the result — the scan returns the fixed error Scan Result
(zero findings, zero counts, empty histogram, risk score 0) for any inspector
outcomes and any threshold.  (The claim's "returns no Scan Result" is refuted
by the counterexample: the internal exception is caught by the function's own
`except` handler, which returns this ScanResult.) -/
theorem scan_access_denied (v : String → Bool) (sub : String) (now : ℕ)
    (runs : List (Option (List SecurityFinding))) (t : Option SeverityLevel)
    (h : v sub = false) :
    scan_subscription v sub now runs t = errorScanResult sub now := by
  simp [scan_subscription, h]

/-- Witness for C4 (amended): a concrete denied scan collapses to the error
result even though an inspector with a critical finding was available. -/
theorem scan_access_denied_witness :
    scan_subscription (fun _ => false) "sub-1" 7
        [some [⟨"a", "r1", SeverityLevel.CRITICAL, 90⟩]] none = errorScanResult "sub-1" 7 :=
  scan_access_denied (fun _ => false) "sub-1" 7
    [some [⟨"a", "r1", SeverityLevel.CRITICAL, 90⟩]] none rfl

/-- Counterexample for C4 as frozen: with the access check returning false,
`scan_subscription` still RETURNS a Scan Result — a fully populated record
with zero findings and risk score 0 — rather than failing with an
`AccessDenied` error and no Scan Result. -/
theorem scan_access_denied_returns_result :
    scan_subscription (fun _ => false) "sub-2" 3
        [some [⟨"a", "r1", SeverityLevel.CRITICAL, 90⟩]] none =
      ⟨"sub-2", 3, 0, 0, [], [], 0⟩ := by decide

/-! ## Claim C5 -/

/-- C5: inspector failures are isolated — a scan over any mix of failing and
succeeding inspectors equals the scan over just the succeeding ones (for every
threshold), and with no threshold the result's findings are exactly the
concatenation, in order, of the succeeding inspectors' findings. -/
theorem scan_inspector_isolation (v : String → Bool) (sub : String) (now : ℕ)
    (runs : List (Option (List SecurityFinding))) (t : Option SeverityLevel)
    (h : v sub = true) :
    scan_subscription v sub now runs t =
        scan_subscription v sub now ((runs.filterMap id).map some) t ∧
      (scan_subscription v sub now runs none).findings = (runs.filterMap id).flatten := by
  have hfm : ((runs.filterMap id).map some).filterMap id = runs.filterMap id := by
    rw [List.filterMap_map]
    simp
  constructor
  · simp only [scan_subscription, h, hfm]
  · simp [scan_subscription, h]

/-- Witness for C5: one of three inspectors raises; the result contains exactly
the two surviving inspectors' findings in order, and the scan equals the scan
over the two survivors alone. -/
theorem scan_inspector_isolation_witness :
    (scan_subscription (fun _ => true) "sub-3" 1
          [some [⟨"a", "r1", SeverityLevel.HIGH, 75⟩], none,
            some [⟨"b", "r2", SeverityLevel.LOW, 25⟩]] none).findings =
        [⟨"a", "r1", SeverityLevel.HIGH, 75⟩, ⟨"b", "r2", SeverityLevel.LOW, 25⟩] ∧
      scan_subscription (fun _ => true) "sub-3" 1
          [some [⟨"a", "r1", SeverityLevel.HIGH, 75⟩], none,
            some [⟨"b", "r2", SeverityLevel.LOW, 25⟩]] none =
        scan_subscription (fun _ => true) "sub-3" 1
          [some [⟨"a", "r1", SeverityLevel.HIGH, 75⟩],
            some [⟨"b", "r2", SeverityLevel.LOW, 25⟩]] none :=
  ⟨(scan_inspector_isolation (fun _ => true) "sub-3" 1
      [some [⟨"a", "r1", SeverityLevel.HIGH, 75⟩], none,
        some [⟨"b", "r2", SeverityLevel.LOW, 25⟩]] none rfl).2,
    (scan_inspector_isolation (fun _ => true) "sub-3" 1
      [some [⟨"a", "r1", SeverityLevel.HIGH, 75⟩], none,
        some [⟨"b", "r2", SeverityLevel.LOW, 25⟩]] none rfl).1⟩

/-! ## Claim C10 -/

/-- C10 (amended): `total_resources_scanned` is the sum, over the inspectors
that succeeded, of the number of distinct `resource_id`s in that inspector's
UNFILTERED findings — computed before the severity filter and without
deduplicating across inspectors.  In the single-inspector, no-threshold case it
does equal the distinct-resource count of the result's findings.  (The claim's
equality with the distinct count over the filtered findings of the result fails
in general: see the counterexample, where two inspectors report the same
resource.) -/
theorem scan_total_resources (v : String → Bool) (sub : String) (now : ℕ)
    (runs : List (Option (List SecurityFinding))) (t : Option SeverityLevel)
    (h : v sub = true) :
    (scan_subscription v sub now runs t).total_resources_scanned =
        ((runs.filterMap id).map
          (fun fs => ((fs.map (·.resource_id)).dedup).length)).sum ∧
      ∀ fs : List SecurityFinding,
        (scan_subscription v sub now [some fs] none).total_resources_scanned =
          (((scan_subscription v sub now [some fs] none).findings.map
            (·.resource_id)).dedup).length := by
  constructor
  · simp [scan_subscription, h]
  · intro fs
    simp [scan_subscription, h]

/-- Witness for C10 (amended): a concrete scan with one succeeding and one
failing inspector, at threshold critical, counts the one distinct resource of
the succeeding inspector's unfiltered findings even though the filter removes
every finding. -/
theorem scan_total_resources_witness :
    (scan_subscription (fun _ => true) "sub-5" 2
        [some [⟨"a", "r1", SeverityLevel.LOW, 25⟩], none]
        (some SeverityLevel.CRITICAL)).total_resources_scanned = 1 ∧
      (scan_subscription (fun _ => true) "sub-5" 2
          [some [⟨"a", "r1", SeverityLevel.LOW, 25⟩], none]
          (some SeverityLevel.CRITICAL)).findings = [] :=
  ⟨((scan_total_resources (fun _ => true) "sub-5" 2
      [some [⟨"a", "r1", SeverityLevel.LOW, 25⟩], none]
      (some SeverityLevel.CRITICAL) rfl).1).trans (by decide),
    by decide⟩

/-- Counterexample for C10 as frozen: two inspectors each report a finding on
the same resource; the code's `total_resources_scanned` is 1 + 1 = 2, but the
number of distinct `resource_id`s in the result's (unfiltered) findings is 1. -/
theorem scan_total_resources_counterexample :
    (scan_subscription (fun _ => true) "sub-4" 2
          [some [⟨"a", "res-shared", SeverityLevel.LOW, 25⟩],
            some [⟨"b", "res-shared", SeverityLevel.MEDIUM, 50⟩]] none).total_resources_scanned ≠
      ((((scan_subscription (fun _ => true) "sub-4" 2
            [some [⟨"a", "res-shared", SeverityLevel.LOW, 25⟩],
              some [⟨"b", "res-shared", SeverityLevel.MEDIUM, 50⟩]] none).findings).map
          (·.resource_id)).dedup).length := by
  decide

/-! ## Claim C9 -/

lemma filter_orderedInsert_pos (p : SecurityFinding → Bool) (x : SecurityFinding)
    (hx : p x = true) (hkey : ∀ y, p y = true → priority_le x y)
    (l : List SecurityFinding) :
    (List.orderedInsert priority_le x l).filter p = x :: l.filter p := by
  induction l with
  | nil => simp [hx]
  | cons y ys ih =>
    by_cases hxy : priority_le x y
    · rw [List.orderedInsert_of_le _ ys hxy]
      simp [List.filter_cons, hx]
    · have hpy : p y = false := by
        cases h2 : p y with
        | false => rfl
        | true => exact absurd (hkey y h2) hxy
      simp only [List.orderedInsert, if_neg hxy, List.filter_cons, hpy]
      exact ih

lemma filter_orderedInsert_neg (p : SecurityFinding → Bool) (x : SecurityFinding)
    (hx : p x = false) (l : List SecurityFinding) :
    (List.orderedInsert priority_le x l).filter p = l.filter p := by
  induction l with
  | nil => simp [hx]
  | cons y ys ih =>
    by_cases hxy : priority_le x y
    · rw [List.orderedInsert_of_le _ ys hxy]
      simp [List.filter_cons, hx]
    · simp only [List.orderedInsert, if_neg hxy, List.filter_cons]
      cases h2 : p y <;> simp [ih]

lemma filter_insertionSort_key (sv : SeverityLevel) (sc : ℕ) (l : List SecurityFinding) :
    (List.insertionSort priority_le l).filter
        (fun f => decide (f.severity = sv ∧ f.risk_score = sc)) =
      l.filter (fun f => decide (f.severity = sv ∧ f.risk_score = sc)) := by
  induction l with
  | nil => rfl
  | cons x xs ih =>
    show (List.orderedInsert priority_le x (List.insertionSort priority_le xs)).filter _ = _
    by_cases hx : x.severity = sv ∧ x.risk_score = sc
    · rw [filter_orderedInsert_pos _ x (by simp [hx.1, hx.2]) ?_ _, ih]
      · simp [List.filter_cons, hx.1, hx.2]
      · intro y hy
        simp only [decide_eq_true_eq] at hy
        right
        rw [hx.1, hy.1, hx.2, hy.2]
        exact ⟨rfl, le_refl _⟩
    · rw [filter_orderedInsert_neg _ x (by simp [hx]) _, ih]
      simp [List.filter_cons, hx]

/-- C9: `prioritize_findings` returns a permutation of its input, sorted
(pairwise) by the key order `priority_le` — ascending severity rank with
critical=0 … info=4, ties broken by descending `risk_score` — and the sort is
stable: for every severity/score key, the subsequence of findings carrying
exactly that key is unchanged, so two findings with identical severity and
identical risk score keep their relative input order. -/
theorem prioritize_findings_spec (l : List SecurityFinding) :
    (prioritize_findings l).Perm l ∧
      (prioritize_findings l).Sorted priority_le ∧
      (∀ (sv : SeverityLevel) (sc : ℕ),
        (prioritize_findings l).filter (fun f => decide (f.severity = sv ∧ f.risk_score = sc)) =
          l.filter (fun f => decide (f.severity = sv ∧ f.risk_score = sc))) :=
  ⟨List.perm_insertionSort priority_le l,
    List.sorted_insertionSort priority_le l,
    fun sv sc => filter_insertionSort_key sv sc l⟩

/-! ## Claim C8 -/

lemma pyRound_bounds (q : ℚ) :
    q - 1 / 2 ≤ (pyRound q : ℚ) ∧ (pyRound q : ℚ) ≤ q + 1 / 2 := by
  have h1 := Int.floor_le q
  have h2 := Int.lt_floor_add_one q
  rw [pyRound]
  split_ifs with ha hb hc <;> push_cast <;> constructor <;> linarith

lemma round2_gt_five_iff {c p : ℤ} (hp0 : 0 < p) (hp100 : p ≤ 100) :
    (5 : ℚ) < round2 (((c : ℚ) - (p : ℚ)) / (p : ℚ) * 100) ↔
      (5 : ℚ) < ((c : ℚ) - (p : ℚ)) / (p : ℚ) * 100 := by
  have hpq : (0 : ℚ) < (p : ℚ) := by exact_mod_cast hp0
  have ht : (((c : ℚ) - (p : ℚ)) / (p : ℚ) * 100) * 100 =
      ((10000 * (c - p) : ℤ) : ℚ) / (p : ℚ) := by
    push_cast
    field_simp
    ring
  have hb := pyRound_bounds ((((c : ℚ) - (p : ℚ)) / (p : ℚ) * 100) * 100)
  rw [round2]
  rw [lt_div_iff₀ (by norm_num : (0 : ℚ) < 100)]
  constructor
  · intro hr
    have hr2 : (500 : ℚ) + 1 ≤ (pyRound ((((c : ℚ) - (p : ℚ)) / (p : ℚ) * 100) * 100) : ℚ) := by
      have : (500 : ℤ) < pyRound ((((c : ℚ) - (p : ℚ)) / (p : ℚ) * 100) * 100) := by
        exact_mod_cast hr
      exact_mod_cast this
    have h500 : (500 : ℚ) < (((c : ℚ) - (p : ℚ)) / (p : ℚ) * 100) * 100 := by
      linarith [hb.2]
    linarith [h500]
  · intro h5
    have h500 : (500 : ℚ) < (((c : ℚ) - (p : ℚ)) / (p : ℚ) * 100) * 100 := by linarith
    have hz : 500 * p < 10000 * (c - p) := by
      have : (500 : ℚ) * (p : ℚ) < ((10000 * (c - p) : ℤ) : ℚ) := by
        rw [ht] at h500
        calc (500 : ℚ) * (p : ℚ) < ((10000 * (c - p) : ℤ) : ℚ) / (p : ℚ) * (p : ℚ) := by
              exact mul_lt_mul_of_pos_right h500 hpq
          _ = ((10000 * (c - p) : ℤ) : ℚ) := by field_simp
      exact_mod_cast this
    have hgap : 505 * p ≤ 10000 * (c - p) := by omega
    have hgapq : (505 : ℚ) ≤ (((c : ℚ) - (p : ℚ)) / (p : ℚ) * 100) * 100 := by
      rw [ht, le_div_iff₀ hpq]
      exact_mod_cast hgap
    have : (504 : ℚ) + 1 / 2 ≤ (pyRound ((((c : ℚ) - (p : ℚ)) / (p : ℚ) * 100) * 100) : ℚ) := by
      linarith [hb.1]
    linarith

lemma round2_lt_neg_five_iff {c p : ℤ} (hp0 : 0 < p) (hp100 : p ≤ 100) :
    round2 (((c : ℚ) - (p : ℚ)) / (p : ℚ) * 100) < -5 ↔
      ((c : ℚ) - (p : ℚ)) / (p : ℚ) * 100 < -5 := by
  have hpq : (0 : ℚ) < (p : ℚ) := by exact_mod_cast hp0
  have ht : (((c : ℚ) - (p : ℚ)) / (p : ℚ) * 100) * 100 =
      ((10000 * (c - p) : ℤ) : ℚ) / (p : ℚ) := by
    push_cast
    field_simp
    ring
  have hb := pyRound_bounds ((((c : ℚ) - (p : ℚ)) / (p : ℚ) * 100) * 100)
  rw [round2]
  rw [div_lt_iff₀ (by norm_num : (0 : ℚ) < 100)]
  constructor
  · intro hr
    have hr2 : (pyRound ((((c : ℚ) - (p : ℚ)) / (p : ℚ) * 100) * 100) : ℚ) ≤ -500 - 1 := by
      have : pyRound ((((c : ℚ) - (p : ℚ)) / (p : ℚ) * 100) * 100) < (-500 : ℤ) := by
        exact_mod_cast hr
      have h501 : pyRound ((((c : ℚ) - (p : ℚ)) / (p : ℚ) * 100) * 100) ≤ (-501 : ℤ) := by
        omega
      exact_mod_cast h501
    have h500 : (((c : ℚ) - (p : ℚ)) / (p : ℚ) * 100) * 100 < -500 := by
      linarith [hb.1]
    linarith
  · intro h5
    have h500 : (((c : ℚ) - (p : ℚ)) / (p : ℚ) * 100) * 100 < -500 := by linarith
    have hz : 10000 * (c - p) < -500 * p := by
      have : ((10000 * (c - p) : ℤ) : ℚ) < (-500 : ℚ) * (p : ℚ) := by
        rw [ht] at h500
        calc ((10000 * (c - p) : ℤ) : ℚ) =
              ((10000 * (c - p) : ℤ) : ℚ) / (p : ℚ) * (p : ℚ) := by field_simp
          _ < (-500 : ℚ) * (p : ℚ) := by exact mul_lt_mul_of_pos_right h500 hpq
      exact_mod_cast this
    have hgap : 10000 * (c - p) ≤ -505 * p := by omega
    have hgapq : (((c : ℚ) - (p : ℚ)) / (p : ℚ) * 100) * 100 ≤ -505 := by
      rw [ht, div_le_iff₀ hpq]
      calc ((10000 * (c - p) : ℤ) : ℚ) ≤ ((-505 * p : ℤ) : ℚ) := by exact_mod_cast hgap
        _ = -505 * (p : ℚ) := by push_cast; ring
    have : (pyRound ((((c : ℚ) - (p : ℚ)) / (p : ℚ) * 100) * 100) : ℚ) ≤ -505 + 1 / 2 := by
      linarith [hb.2]
    linarith

lemma trend_direction_cases (c p : ℤ) (hp0 : 0 < p) (hp100 : p ≤ 100) :
    ((if 5 < round2 (((c : ℚ) - (p : ℚ)) / (p : ℚ) * 100) then
        if c < p then "improving" else "degrading"
      else if round2 (((c : ℚ) - (p : ℚ)) / (p : ℚ) * 100) < -5 then
        if p < c then "degrading" else "improving"
      else "stable") = "improving" ↔
        ((c : ℚ) - (p : ℚ)) / (p : ℚ) * 100 < -5) ∧
    ((if 5 < round2 (((c : ℚ) - (p : ℚ)) / (p : ℚ) * 100) then
        if c < p then "improving" else "degrading"
      else if round2 (((c : ℚ) - (p : ℚ)) / (p : ℚ) * 100) < -5 then
        if p < c then "degrading" else "improving"
      else "stable") = "degrading" ↔
        5 < ((c : ℚ) - (p : ℚ)) / (p : ℚ) * 100) ∧
    ((if 5 < round2 (((c : ℚ) - (p : ℚ)) / (p : ℚ) * 100) then
        if c < p then "improving" else "degrading"
      else if round2 (((c : ℚ) - (p : ℚ)) / (p : ℚ) * 100) < -5 then
        if p < c then "degrading" else "improving"
      else "stable") = "stable" ↔
        (-5 ≤ ((c : ℚ) - (p : ℚ)) / (p : ℚ) * 100 ∧
          ((c : ℚ) - (p : ℚ)) / (p : ℚ) * 100 ≤ 5)) := by
  have hpq : (0 : ℚ) < (p : ℚ) := by exact_mod_cast hp0
  have hgt := round2_gt_five_iff (c := c) hp0 hp100
  have hlt := round2_lt_neg_five_iff (c := c) hp0 hp100
  by_cases h5 : (5 : ℚ) < ((c : ℚ) - (p : ℚ)) / (p : ℚ) * 100
  · have h0 : (0 : ℚ) < ((c : ℚ) - (p : ℚ)) / (p : ℚ) := by linarith
    have h1 : (0 : ℚ) < (c : ℚ) - (p : ℚ) := by
      rcases div_pos_iff.mp h0 with ⟨ha, _⟩ | ⟨_, hb⟩
      · exact ha
      · linarith
    have hcp : p < c := by
      have : (p : ℚ) < (c : ℚ) := by linarith
      exact_mod_cast this
    rw [if_pos (hgt.mpr h5), if_neg (by omega : ¬c < p)]
    exact ⟨iff_of_false (by decide) (by linarith),
      iff_of_true rfl h5,
      iff_of_false (by decide) (by intro hP; linarith [hP.2])⟩
  · by_cases hm5 : ((c : ℚ) - (p : ℚ)) / (p : ℚ) * 100 < -5
    · have h0 : ((c : ℚ) - (p : ℚ)) / (p : ℚ) < 0 := by linarith
      have h1 : (c : ℚ) - (p : ℚ) < 0 := by
        rcases div_neg_iff.mp h0 with ⟨_, hb⟩ | ⟨ha, _⟩
        · linarith
        · exact ha
      have hcp : c < p := by
        have : (c : ℚ) < (p : ℚ) := by linarith
        exact_mod_cast this
      rw [if_neg (fun hc => h5 (hgt.mp hc)), if_pos (hlt.mpr hm5),
        if_neg (by omega : ¬p < c)]
      exact ⟨iff_of_true rfl hm5,
        iff_of_false (by decide) h5,
        iff_of_false (by decide) (by intro hP; linarith [hP.1])⟩
    · rw [if_neg (fun hc => h5 (hgt.mp hc)), if_neg (fun hc => hm5 (hlt.mp hc))]
      exact ⟨iff_of_false (by decide) hm5,
        iff_of_false (by decide) h5,
        iff_of_true rfl ⟨le_of_not_lt hm5, le_of_not_lt h5⟩⟩

/-- C8 (amended): for every list of scan results whose stable descending sort
by timestamp starts with `s0` (current) and `s1` (previous), the trend reports
those two scores; `s0` is a most recent element of the list; a zero previous
score gives trend 0 and "stable"; a non-zero previous score gives `trend =
round₂(changePercent)` — the exact percentage change rounded to two decimal
places, which is where the frozen claim fails (see the rounding
counterexample) — with direction "improving" exactly when the exact change is
below −5, "degrading" exactly when above 5, and "stable" otherwise; and any
list of fewer than two results yields `{trend: 0, direction: "stable"}`. -/
theorem risk_trend_spec (l : List ScanResult) (s0 s1 : ScanResult) (rest : List ScanResult)
    (hsort : List.insertionSort moreRecent l = s0 :: s1 :: rest)
    (hb0 : 0 ≤ s1.risk_score) (hb100 : s1.risk_score ≤ 100) :
    (calculate_subscription_risk_trend l).current_score = some s0.risk_score ∧
      (calculate_subscription_risk_trend l).previous_score = some s1.risk_score ∧
      (∀ s ∈ l, s.scan_timestamp ≤ s0.scan_timestamp) ∧
      (s1.risk_score = 0 →
        (calculate_subscription_risk_trend l).trend = 0 ∧
          (calculate_subscription_risk_trend l).direction = "stable") ∧
      (s1.risk_score ≠ 0 →
        (calculate_subscription_risk_trend l).trend =
            round2 (((s0.risk_score : ℚ) - (s1.risk_score : ℚ)) / (s1.risk_score : ℚ) * 100) ∧
          ((calculate_subscription_risk_trend l).direction = "improving" ↔
            ((s0.risk_score : ℚ) - (s1.risk_score : ℚ)) / (s1.risk_score : ℚ) * 100 < -5) ∧
          ((calculate_subscription_risk_trend l).direction = "degrading" ↔
            5 < ((s0.risk_score : ℚ) - (s1.risk_score : ℚ)) / (s1.risk_score : ℚ) * 100) ∧
          ((calculate_subscription_risk_trend l).direction = "stable" ↔
            (-5 ≤ ((s0.risk_score : ℚ) - (s1.risk_score : ℚ)) / (s1.risk_score : ℚ) * 100 ∧
              ((s0.risk_score : ℚ) - (s1.risk_score : ℚ)) / (s1.risk_score : ℚ) * 100 ≤ 5))) ∧
      (∀ l2 : List ScanResult, l2.length < 2 →
        calculate_subscription_risk_trend l2 = ⟨0, "stable", none, none⟩) := by
  have hlen : ¬l.length < 2 := by
    have hl := (List.perm_insertionSort moreRecent l).length_eq
    rw [hsort] at hl
    simp only [List.length_cons] at hl
    omega
  have hshort : ∀ l2 : List ScanResult, l2.length < 2 →
      calculate_subscription_risk_trend l2 = ⟨0, "stable", none, none⟩ := by
    intro l2 h2
    rw [calculate_subscription_risk_trend, if_pos h2]
  have hmr : ∀ s ∈ l, s.scan_timestamp ≤ s0.scan_timestamp := by
    intro s hs
    have hmem : s ∈ List.insertionSort moreRecent l :=
      (List.perm_insertionSort moreRecent l).mem_iff.mpr hs
    rw [hsort] at hmem
    rcases List.mem_cons.mp hmem with rfl | hmem2
    · exact le_refl _
    · have hsorted := List.sorted_insertionSort moreRecent l
      rw [hsort] at hsorted
      exact List.rel_of_sorted_cons hsorted s hmem2
  have hmain : calculate_subscription_risk_trend l =
      (if s1.risk_score = 0 then
        (⟨0, "stable", some s0.risk_score, some s1.risk_score⟩ : TrendResult)
      else
        ⟨round2 (((s0.risk_score : ℚ) - (s1.risk_score : ℚ)) / (s1.risk_score : ℚ) * 100),
          if 5 < round2 (((s0.risk_score : ℚ) - (s1.risk_score : ℚ)) /
              (s1.risk_score : ℚ) * 100) then
            if s0.risk_score < s1.risk_score then "improving" else "degrading"
          else if round2 (((s0.risk_score : ℚ) - (s1.risk_score : ℚ)) /
              (s1.risk_score : ℚ) * 100) < -5 then
            if s1.risk_score < s0.risk_score then "degrading" else "improving"
          else "stable",
          some s0.risk_score, some s1.risk_score⟩) := by
    rw [calculate_subscription_risk_trend, if_neg hlen, hsort]
  by_cases hz : s1.risk_score = 0
  · rw [hmain, if_pos hz]
    exact ⟨rfl, rfl, hmr, fun _ => ⟨rfl, rfl⟩, fun hne => absurd hz hne, hshort⟩
  · rw [hmain, if_neg hz]
    have hp0 : (0 : ℤ) < s1.risk_score := lt_of_le_of_ne hb0 (Ne.symm hz)
    obtain ⟨h1, h2, h3⟩ := trend_direction_cases s0.risk_score s1.risk_score hp0 hb100
    exact ⟨rfl, rfl, hmr, fun h0 => absurd h0 hz,
      fun _ => ⟨rfl, h1, h2, h3⟩, hshort⟩

/-- Witness for C8, at the claim's three examples: previous 50 / current 40
gives trend −20 and "improving"; previous 50 / current 60 gives "degrading";
previous 50 / current 52 gives "stable". -/
theorem risk_trend_spec_witness :
    (calculate_subscription_risk_trend
        [⟨"s", 1, 0, 0, [], [], 50⟩, ⟨"s", 2, 0, 0, [], [], 40⟩]).direction = "improving" ∧
      (calculate_subscription_risk_trend
        [⟨"s", 1, 0, 0, [], [], 50⟩, ⟨"s", 2, 0, 0, [], [], 40⟩]).trend = -20 ∧
      (calculate_subscription_risk_trend
        [⟨"s", 1, 0, 0, [], [], 50⟩, ⟨"s", 3, 0, 0, [], [], 60⟩]).direction = "degrading" ∧
      (calculate_subscription_risk_trend
        [⟨"s", 1, 0, 0, [], [], 50⟩, ⟨"s", 4, 0, 0, [], [], 52⟩]).direction = "stable" := by
  refine ⟨?_, ?_, ?_, ?_⟩
  · have h := (risk_trend_spec [⟨"s", 1, 0, 0, [], [], 50⟩, ⟨"s", 2, 0, 0, [], [], 40⟩]
      ⟨"s", 2, 0, 0, [], [], 40⟩ ⟨"s", 1, 0, 0, [], [], 50⟩ [] (by decide) (by decide)
      (by decide)).2.2.2.2.1 (by decide)
    exact h.2.1.mpr (by norm_num)
  · have h := (risk_trend_spec [⟨"s", 1, 0, 0, [], [], 50⟩, ⟨"s", 2, 0, 0, [], [], 40⟩]
      ⟨"s", 2, 0, 0, [], [], 40⟩ ⟨"s", 1, 0, 0, [], [], 50⟩ [] (by decide) (by decide)
      (by decide)).2.2.2.2.1 (by decide)
    rw [h.1]
    norm_num [round2, pyRound]
  · have h := (risk_trend_spec [⟨"s", 1, 0, 0, [], [], 50⟩, ⟨"s", 3, 0, 0, [], [], 60⟩]
      ⟨"s", 3, 0, 0, [], [], 60⟩ ⟨"s", 1, 0, 0, [], [], 50⟩ [] (by decide) (by decide)
      (by decide)).2.2.2.2.1 (by decide)
    exact h.2.2.1.mpr (by norm_num)
  · have h := (risk_trend_spec [⟨"s", 1, 0, 0, [], [], 50⟩, ⟨"s", 4, 0, 0, [], [], 52⟩]
      ⟨"s", 4, 0, 0, [], [], 52⟩ ⟨"s", 1, 0, 0, [], [], 50⟩ [] (by decide) (by decide)
      (by decide)).2.2.2.2.1 (by decide)
    exact h.2.2.2.mpr (by constructor <;> norm_num)

/-- Counterexample for C8 as frozen: with previous score 3 and current score 4
the exact change percentage is 100/3 = 33.333…, but the code returns
`round(100/3, 2) = 33.33`, so the returned `changePercent` is NOT equal to
`(current − previous) / previous × 100` in general — the code rounds it to two
decimal places. -/
theorem risk_trend_rounding_counterexample :
    (calculate_subscription_risk_trend
        [⟨"s", 1, 0, 0, [], [], 3⟩, ⟨"s", 2, 0, 0, [], [], 4⟩]).trend ≠
      ((4 : ℚ) - 3) / 3 * 100 := by
  have hs : List.insertionSort moreRecent
      [⟨"s", 1, 0, 0, [], [], 3⟩, ⟨"s", 2, 0, 0, [], [], 4⟩] =
      [⟨"s", 2, 0, 0, [], [], 4⟩, ⟨"s", 1, 0, 0, [], [], 3⟩] := by decide
  rw [calculate_subscription_risk_trend, if_neg (by decide), hs]
  norm_num [round2, pyRound]

end CSPM
